import Mathlib

/-!
Verification development for the Comfy-Cloud authentication/session store
(`src/stores/comfyCloudAuthStore.ts`) and its API types
(`src/types/comfyCloudTypes.ts`).

Modelling conventions (shallow embedding):
- The reactive store state (refs and the persisted token) is a record
  `AuthState`; each store action is a Lean function from the state and the
  outcome of the HTTP request it performs to the new state, a list of
  observable effects (issued requests, toast notifications, console errors,
  scheduled background tasks) and its result.
- The HTTP transport is an oracle: an action that performs a fetch receives
  an `Option (HttpResp b)` argument, where `none` is a transport failure
  (the fetch promise rejects) and `some r` is a response with status `r.status`
  and the parsed JSON body `r.body`. Response bodies carry both the payload
  read on the success path and the `error` field read on the failure path,
  since the code parses the body differently on each path.
- JavaScript exceptions are `Except StoreErr`; `ComfyCloudAuthError` is the
  constructor `StoreErr.auth` with its message, any other rejection is
  `StoreErr.network`.
- TS `number` fields are modelled as `Int` (the store performs no arithmetic
  on them) and `Date` timestamps as `Nat`.
- Request header assembly inside `fetchWithAuth` is not modelled; the trace
  records the URL of each issued request.
-/

namespace ComfyCloudAuth

/-! Types from `src/types/comfyCloudTypes.ts`. -/

inductive SubscriptionTier
  | basic
  | pro
  | enterprise
deriving DecidableEq, Repr

inductive SubscriptionStatus
  | active
  | expired
  | cancelled
deriving DecidableEq, Repr

structure SubscriptionFeatures where
  gpu_access : Bool
  vip_models : Bool
  storage_limit_gb : Int
  concurrent_tasks : Int
deriving DecidableEq, Repr

structure ComfyCloudSubscription where
  tier : SubscriptionTier
  status : SubscriptionStatus
  started_at : String
  expires_at : String
  auto_renew : Bool
  features : SubscriptionFeatures
deriving DecidableEq, Repr

structure ComfyCloudUser where
  id : Int
  username : String
  email : String
  tier : SubscriptionTier
  balance : Int
  storage_used : Int
  storage_limit : Int
  created_at : String
  subscription : Option ComfyCloudSubscription := none
deriving DecidableEq, Repr

structure ComfyCloudBalance where
  balance : Int
  currency : String
  last_updated : String
deriving DecidableEq, Repr

structure LoginRequest where
  username : String
  password : String
deriving DecidableEq, Repr

structure LoginResponse where
  token : String
  user : ComfyCloudUser
deriving DecidableEq, Repr

structure RegisterRequest where
  username : String
  email : String
  password : String
deriving DecidableEq, Repr

structure RegisterResponse where
  token : String
  user : ComfyCloudUser
deriving DecidableEq, Repr

structure ComfyCloudAuthHeader where
  Authorization : String
deriving DecidableEq, Repr

/-! Store state: the refs declared at the top of the store body, plus the
persisted token (`useLocalStorage(STORAGE_KEY, null)`). -/

structure AuthState where
  token : Option String
  currentUser : Option ComfyCloudUser
  isInitialized : Bool
  loading : Bool
  balance : Option ComfyCloudBalance
  lastBalanceUpdateTime : Option Nat
  isFetchingBalance : Bool
deriving DecidableEq, Repr

def API_BASE : String := "/api"

def STORAGE_KEY : String := "comfy_cloud_token"

/-- Helper: Build API URL. -/
def buildApiUrl (path : String) : String := API_BASE ++ path

/-- The i18n lookup `t` is an external collaborator; modelled as the
identity on message keys. -/
def t (key : String) : String := key

/-- Exceptions: `StoreErr.auth m` is `ComfyCloudAuthError` with message `m`;
`StoreErr.network` is any other rejection of a fetch promise. -/
inductive StoreErr
  | network
  | auth (message : String)
deriving DecidableEq, Repr

deriving instance DecidableEq for Except

/-- An HTTP response: status plus parsed JSON body. -/
structure HttpResp (b : Type) where
  status : Nat
  body : b
deriving DecidableEq, Repr

/-- `Response.ok` of the fetch API: status in the range 200..299. -/
def respOk {b : Type} (r : HttpResp b) : Bool :=
  decide (200 ≤ r.status) && decide (r.status < 300)

/-- Toast severities used by the store. -/
inductive ToastSeverity
  | success
  | info
  | error
deriving DecidableEq, Repr

structure ToastMsg where
  severity : ToastSeverity
  summary : String
deriving DecidableEq, Repr

/-- Observable effects of a store action: an issued HTTP request (by URL),
a toast notification, a console error, or a scheduled fire-and-forget task. -/
inductive Eff
  | call (url : String)
  | toast (msg : ToastMsg)
  | consoleError (msg : String)
  | schedule (task : String)
deriving DecidableEq, Repr

/-- JavaScript `x || d` on an optional string field: `undefined` and the
empty string are falsy. -/
def jsOr (v : Option String) (d : String) : String :=
  match v with
  | none => d
  | some m => if m.isEmpty then d else m

/-- JavaScript truthiness of a nullable string such as the token:
`null` and the empty string are falsy, every other string is truthy. -/
def truthy (v : Option String) : Bool :=
  match v with
  | none => false
  | some m => !m.isEmpty

/-- Computed `isAuthenticated`: `!!currentUser.value && !!token.value`.
The user is an object, truthy exactly when non-null; the token is a string,
for which JavaScript also treats the empty string as falsy. -/
def isAuthenticated (s : AuthState) : Bool :=
  s.currentUser.isSome && truthy s.token

def userNotAuthenticatedMsg : String := t "toastMessages.userNotAuthenticated"

/-- Helper: Make authenticated request (`fetchWithAuth`). Given the outcome of
the underlying `fetch`, a 401 response clears token and user and raises
`ComfyCloudAuthError`; a transport failure propagates; any other response is
returned. -/
def fetchWithAuth {b : Type} (url : String) (s : AuthState)
    (out : Option (HttpResp b)) :
    AuthState × List Eff × Except StoreErr (HttpResp b) :=
  match out with
  | none => (s, [Eff.call url], Except.error StoreErr.network)
  | some r =>
    if r.status = 401 then
      ({ s with token := none, currentUser := none }, [Eff.call url],
        Except.error (StoreErr.auth userNotAuthenticatedMsg))
    else
      (s, [Eff.call url], Except.ok r)

/-- Body of a `/user/info` response: the user payload read when `ok`, and the
`error` field read when not `ok`. -/
structure UserInfoBody where
  user : ComfyCloudUser
  errorField : Option String := none
deriving DecidableEq, Repr

/-- Body of a `/user/balance` response. -/
structure BalanceBody where
  balanceData : ComfyCloudBalance
  errorField : Option String := none
deriving DecidableEq, Repr

/-- Body of an `/auth/login` or `/auth/register` response. -/
structure LoginBody where
  data : LoginResponse
  errorField : Option String := none
deriving DecidableEq, Repr

/-- Body of an `/auth/refresh` response (`data.token`). -/
structure RefreshBody where
  token : String
deriving DecidableEq, Repr

/-- `fetchUserInfo`: authenticated GET of `/user/info`; on a non-ok response
raises `ComfyCloudAuthError` with the error field of the body; on success
replaces `currentUser` wholesale and returns the user. -/
def fetchUserInfo (s : AuthState) (out : Option (HttpResp UserInfoBody)) :
    AuthState × List Eff × Except StoreErr ComfyCloudUser :=
  match fetchWithAuth (buildApiUrl "/user/info") s out with
  | (s1, effs, Except.error e) => (s1, effs, Except.error e)
  | (s1, effs, Except.ok r) =>
    if respOk r then
      ({ s1 with currentUser := some r.body.user }, effs, Except.ok r.body.user)
    else
      (s1, effs,
        Except.error (StoreErr.auth (jsOr r.body.errorField "Failed to fetch user info")))

/-- `fetchBalance`: returns null immediately when not authenticated (no fetch
is issued); otherwise sets the in-flight flag, issues an authenticated GET of
`/user/balance`, returns null on 404, raises `ComfyCloudAuthError` on any
other non-ok response, and on success stores the balance and the current
time; the in-flight flag is reset on every path (`finally`). -/
def fetchBalance (s : AuthState) (out : Option (HttpResp BalanceBody))
    (now : Nat) :
    AuthState × List Eff × Except StoreErr (Option ComfyCloudBalance) :=
  if isAuthenticated s = false then (s, [], Except.ok none)
  else
    let s0 : AuthState := { s with isFetchingBalance := true }
    match fetchWithAuth (buildApiUrl "/user/balance") s0 out with
    | (s1, effs, Except.error e) =>
      ({ s1 with isFetchingBalance := false }, effs, Except.error e)
    | (s1, effs, Except.ok r) =>
      if respOk r then
        ({ s1 with balance := some r.body.balanceData,
                   lastBalanceUpdateTime := some now,
                   isFetchingBalance := false }, effs,
          Except.ok (some r.body.balanceData))
      else if r.status = 404 then
        ({ s1 with isFetchingBalance := false }, effs, Except.ok none)
      else
        ({ s1 with isFetchingBalance := false }, effs,
          Except.error (StoreErr.auth (jsOr r.body.errorField "Failed to fetch balance")))

/-- Modelled from the spec: `useErrorHandling` (from
`@/composables/useErrorHandling`, not present in this source tree) provides
`toastErrorHandler`, which surfaces a failure as a user-visible error
notification carrying the error message. -/
def errMessage : StoreErr → String
  | StoreErr.network => "Network error"
  | StoreErr.auth m => m

def toastErrorHandler (e : StoreErr) : Eff :=
  Eff.toast { severity := ToastSeverity.error, summary := errMessage e }

/-- Modelled from the spec: `wrapWithErrorHandlingAsync f toastErrorHandler`
catches a failure of the wrapped action at the boundary, surfaces it through
the notification collaborator, and does not rethrow to the caller (spec
section 7: login, register and logout failures are caught at the boundary
and surfaced as user-visible notifications; they do not crash the caller). -/
def wrapWithErrorHandlingAsync {a : Type}
    (r : AuthState × List Eff × Except StoreErr a) :
    AuthState × List Eff × Option a :=
  match r with
  | (s, effs, Except.ok v) => (s, effs, some v)
  | (s, effs, Except.error e) => (s, effs ++ [toastErrorHandler e], none)

/-- Body of `login` before the error-handling wrapper: POST `/auth/login`
without auth handling; on a non-ok response raises `ComfyCloudAuthError`
with the error field; on success stores token and user, emits a success
toast and schedules a fire-and-forget balance fetch. `loading` is toggled
around the call (`finally`). -/
def loginInner (s : AuthState) (username password : String)
    (out : Option (HttpResp LoginBody)) :
    AuthState × List Eff × Except StoreErr LoginResponse :=
  let url := buildApiUrl "/auth/login"
  let s0 : AuthState := { s with loading := true }
  match out with
  | none => ({ s0 with loading := false }, [Eff.call url], Except.error StoreErr.network)
  | some r =>
    if respOk r then
      let d := r.body.data
      ({ s0 with token := some d.token, currentUser := some d.user, loading := false },
        [Eff.call url,
         Eff.toast { severity := ToastSeverity.success, summary := t "auth.login.success" },
         Eff.schedule "fetchBalance"],
        Except.ok d)
    else
      ({ s0 with loading := false }, [Eff.call url],
        Except.error (StoreErr.auth (jsOr r.body.errorField "Login failed")))

/-- `login` as exported: the inner action wrapped with the error handler. -/
def login (s : AuthState) (username password : String)
    (out : Option (HttpResp LoginBody)) :
    AuthState × List Eff × Option LoginResponse :=
  wrapWithErrorHandlingAsync (loginInner s username password out)

/-- Body of `register` before the wrapper: symmetric to login but without
the balance fetch. -/
def registerInner (s : AuthState) (username email password : String)
    (out : Option (HttpResp LoginBody)) :
    AuthState × List Eff × Except StoreErr RegisterResponse :=
  let url := buildApiUrl "/auth/register"
  let s0 : AuthState := { s with loading := true }
  match out with
  | none => ({ s0 with loading := false }, [Eff.call url], Except.error StoreErr.network)
  | some r =>
    if respOk r then
      let d := r.body.data
      ({ s0 with token := some d.token, currentUser := some d.user, loading := false },
        [Eff.call url,
         Eff.toast { severity := ToastSeverity.success, summary := t "auth.register.success" }],
        Except.ok { token := d.token, user := d.user })
    else
      ({ s0 with loading := false }, [Eff.call url],
        Except.error (StoreErr.auth (jsOr r.body.errorField "Registration failed")))

def register (s : AuthState) (username email password : String)
    (out : Option (HttpResp LoginBody)) :
    AuthState × List Eff × Option RegisterResponse :=
  wrapWithErrorHandlingAsync (registerInner s username email password out)

/-- Body of `logout` before the wrapper: when a token is present, a
best-effort POST `/auth/logout` whose failure (transport error or the 401
`ComfyCloudAuthError` raised by the helper) is swallowed by `.catch`;
then token, user, balance and the balance timestamp are cleared
unconditionally and an informational toast is emitted. This action never
fails. -/
def logoutInner (s : AuthState) (out : Option (HttpResp Unit)) :
    AuthState × List Eff × Except StoreErr Unit :=
  let s0 : AuthState := { s with loading := true }
  let step :=
    if truthy s0.token then
      match fetchWithAuth (buildApiUrl "/auth/logout") s0 out with
      | (s1, effs, _) => (s1, effs)
    else (s0, ([] : List Eff))
  ({ step.1 with token := none, currentUser := none, balance := none,
                 lastBalanceUpdateTime := none, loading := false },
    step.2 ++ [Eff.toast { severity := ToastSeverity.info, summary := t "auth.logout.success" }],
    Except.ok ())

def logout (s : AuthState) (out : Option (HttpResp Unit)) :
    AuthState × List Eff × Option Unit :=
  wrapWithErrorHandlingAsync (logoutInner s out)

/-- `refreshToken`: `if (!token.value) return null` — returns null when the
stored token is falsy (null or empty); otherwise POST `/auth/refresh`
through the helper, with every failure (transport error, the 401
`ComfyCloudAuthError`, or a non-ok response) swallowed into a null return;
on success stores and returns the new token. -/
def refreshToken (s : AuthState) (out : Option (HttpResp RefreshBody)) :
    AuthState × List Eff × Option String :=
  if truthy s.token = false then (s, [], none)
  else
    match fetchWithAuth (buildApiUrl "/auth/refresh") s out with
    | (s1, effs, Except.error _) => (s1, effs, none)
    | (s1, effs, Except.ok r) =>
      if respOk r then
        ({ s1 with token := some r.body.token }, effs, some r.body.token)
      else
        (s1, effs, none)

/-- `getAuthHeader`: `if (!token.value) return null` — null when the token
is falsy (null or empty), otherwise the Bearer header. -/
def getAuthHeader (s : AuthState) : Option ComfyCloudAuthHeader :=
  match s.token with
  | none => none
  | some tk => if tk.isEmpty then none else some { Authorization := "Bearer " ++ tk }

/-- `getAuthToken`: the raw token value. -/
def getAuthToken (s : AuthState) : Option String := s.token

/-- The token-cleared branch of the token watcher: clears user and balance
and marks the store initialized. Also the quiescent effect of the cascaded
re-firing that follows any assignment of null to the token. -/
def watcherNullFire (s : AuthState) : AuthState :=
  { s with currentUser := none, balance := none, isInitialized := true }

/-- One run of the `watch(token, ...)` callback to quiescence, given the
outcome of the `fetchUserInfo` request it may perform. The branch test is
`if (newToken)`: with a truthy token it awaits `fetchUserInfo` and marks
the store initialized; on failure it logs, clears the token and marks
initialized, and the watcher then re-fires on the now-null token, clearing
user and balance. With a falsy token (null or the empty string) it clears
user and balance and marks initialized, leaving the token value alone. -/
def tokenWatcherRun (s : AuthState) (out : Option (HttpResp UserInfoBody)) :
    AuthState × List Eff :=
  if truthy s.token then
    match fetchUserInfo s out with
    | (s1, effs, Except.ok _) => ({ s1 with isInitialized := true }, effs)
    | (s1, effs, Except.error e) =>
      (watcherNullFire { s1 with token := none, isInitialized := true },
        effs ++ [Eff.consoleError (errMessage e)])
  else (watcherNullFire s, [])

/-- The store state as created at setup, before the immediate watcher
firing: all refs at their initial values and the token at its persisted
value (`useLocalStorage(STORAGE_KEY, null)`). -/
def mkInitState (persistedToken : Option String) : AuthState :=
  { token := persistedToken, currentUser := none, isInitialized := false,
    loading := false, balance := none, lastBalanceUpdateTime := none,
    isFetchingBalance := false }

/-- Store startup: the watcher is registered with `immediate: true`, so it
fires once on the persisted token value. -/
def initStore (persistedToken : Option String)
    (out : Option (HttpResp UserInfoBody)) : AuthState × List Eff :=
  tokenWatcherRun (mkInitState persistedToken) out

/-- Number of requests to `url` in an effect trace. -/
def countCalls (effs : List Eff) (url : String) : Nat :=
  (effs.filter (fun e => decide (e = Eff.call url))).length

/-- States of the store reachable from startup (with any persisted token)
by the exported actions and watcher firings, under any network behavior. -/
inductive Reachable : AuthState → Prop
  | init (pt : Option String) : Reachable (mkInitState pt)
  | watcherStep (s : AuthState) (out : Option (HttpResp UserInfoBody)) :
      Reachable s → Reachable (tokenWatcherRun s out).1
  | loginStep (s : AuthState) (u p : String) (out : Option (HttpResp LoginBody)) :
      Reachable s → Reachable (login s u p out).1
  | registerStep (s : AuthState) (u e p : String) (out : Option (HttpResp LoginBody)) :
      Reachable s → Reachable (register s u e p out).1
  | logoutStep (s : AuthState) (out : Option (HttpResp Unit)) :
      Reachable s → Reachable (logout s out).1
  | userInfoStep (s : AuthState) (out : Option (HttpResp UserInfoBody)) :
      Reachable s → Reachable (fetchUserInfo s out).1
  | balanceStep (s : AuthState) (out : Option (HttpResp BalanceBody)) (now : Nat) :
      Reachable s → Reachable (fetchBalance s out now).1
  | refreshStep (s : AuthState) (out : Option (HttpResp RefreshBody)) :
      Reachable s → Reachable (refreshToken s out).1

/-- Whether an action result is a success (no exception). -/
def resultOk {a : Type} : Except StoreErr a → Bool
  | Except.ok _ => true
  | Except.error _ => false

/-- Sample user for concrete witnesses. -/
def sampleUser : ComfyCloudUser :=
  { id := 1, username := "alice", email := "alice@example.com",
    tier := SubscriptionTier.pro, balance := 10, storage_used := 0,
    storage_limit := 100, created_at := "2024-01-01" }

/-- Sample balance for concrete witnesses. -/
def sampleBalance : ComfyCloudBalance :=
  { balance := 5, currency := "USD", last_updated := "2024-01-02" }

/-- A fully authenticated sample state. -/
def authedState : AuthState :=
  { token := some "T", currentUser := some sampleUser, isInitialized := true,
    loading := false, balance := some sampleBalance,
    lastBalanceUpdateTime := some 100, isFetchingBalance := false }

/-- The state after a login whose 200 response carries an empty-string
token: the store writes `data.token` verbatim, so token and user are both
non-null while the token is falsy. -/
def emptyTokenLoginState : AuthState :=
  (login (mkInitState none) "alice" "pw"
    (some { status := 200,
            body := { data := { token := "", user := sampleUser } } })).1

/-- A state holding an empty-string (non-null but falsy) token alongside a
resolved user. -/
def emptyTokenState : AuthState :=
  { authedState with token := some "" }

/-! Theorems. -/

/-- Helper: a string has `isEmpty` false exactly when it is not `""`. -/
theorem string_isEmpty_false_iff (m : String) : m.isEmpty = false ↔ m ≠ "" := by
  constructor
  · intro h hm
    subst hm
    exact absurd h (by decide)
  · intro h
    cases hb : m.isEmpty
    · rfl
    · exact absurd ((String.isEmpty_iff m).mp hb) h

/-- C1 counterexample: after a login whose 200 response carries the token
`""`, a reachable state has both token and user non-null while
`isAuthenticated` is false, because JavaScript `!!token.value` is false on
the empty string; this refutes the claimed iff on reachable states. -/
theorem isAuthenticated_iff_counterexample :
    Reachable emptyTokenLoginState ∧
    emptyTokenLoginState.token ≠ none ∧
    emptyTokenLoginState.currentUser ≠ none ∧
    isAuthenticated emptyTokenLoginState = false := by
  refine ⟨?_, by decide, by decide, by decide⟩
  exact Reachable.loginStep (mkInitState none) "alice" "pw"
    (some { status := 200,
            body := { data := { token := "", user := sampleUser } } })
    (Reachable.init none)

/-- C1 amended: for every state of the session store (hence for every
reachable one), `isAuthenticated` is true if and only if `currentUser` is
non-null and `token` is non-null and non-empty (truthy). -/
theorem isAuthenticated_iff_truthy_token (s : AuthState) :
    isAuthenticated s = true ↔
      (s.currentUser ≠ none ∧ s.token ≠ none ∧ s.token ≠ some "") := by
  cases hcu : s.currentUser <;> cases htk : s.token <;>
    simp [isAuthenticated, truthy, hcu, htk, string_isEmpty_false_iff]

/-- C3: after `logout` completes, token, user, balance and the balance
timestamp are all null, the call resolves successfully with the sole
informational logout toast (never an error toast), for every prior state and
every network outcome of the best-effort server call, including a transport
failure; in particular this holds after any login. -/
theorem logout_clears_state (s : AuthState) (out : Option (HttpResp Unit)) :
    (logout s out).1.token = none ∧
    (logout s out).1.currentUser = none ∧
    (logout s out).1.balance = none ∧
    (logout s out).1.lastBalanceUpdateTime = none ∧
    (logout s out).2.2 = some () ∧
    (logout s out).2.1 =
      (if truthy s.token then [Eff.call (buildApiUrl "/auth/logout")] else []) ++
        [Eff.toast { severity := ToastSeverity.info, summary := t "auth.logout.success" }] := by
  by_cases htr : truthy s.token = true
  · cases out with
    | none => simp [logout, wrapWithErrorHandlingAsync, logoutInner, fetchWithAuth, htr]
    | some r =>
      by_cases h4 : r.status = 401 <;>
        simp [logout, wrapWithErrorHandlingAsync, logoutInner, fetchWithAuth, htr, h4]
  · simp [logout, wrapWithErrorHandlingAsync, logoutInner, htr]

/-- C4: whenever `isAuthenticated` is false, `fetchBalance` returns null
without issuing any request and without changing the state at all (in
particular `balance` and `lastBalanceUpdateTime` are untouched), regardless
of the network oracle. -/
theorem fetchBalance_unauthenticated (s : AuthState)
    (out : Option (HttpResp BalanceBody)) (now : Nat)
    (h : isAuthenticated s = false) :
    fetchBalance s out now = (s, [], Except.ok none) := by
  simp [fetchBalance, h]

theorem fetchBalance_unauthenticated_witness :
    isAuthenticated (mkInitState (some "T")) = false ∧
      fetchBalance (mkInitState (some "T")) none 3 =
        (mkInitState (some "T"), [], Except.ok none) :=
  ⟨by decide, fetchBalance_unauthenticated (mkInitState (some "T")) none 3 (by decide)⟩

/-- C5: `fetchBalance` while authenticated on a 404 response returns null,
raises no error, and leaves the stored balance and its timestamp unchanged
(only the in-flight flag ends reset). -/
theorem fetchBalance_404 (s : AuthState) (r : HttpResp BalanceBody) (now : Nat)
    (hauth : isAuthenticated s = true) (h404 : r.status = 404) :
    fetchBalance s (some r) now =
      ({ s with isFetchingBalance := false },
        [Eff.call (buildApiUrl "/user/balance")], Except.ok none) ∧
    (fetchBalance s (some r) now).1.balance = s.balance ∧
    (fetchBalance s (some r) now).1.lastBalanceUpdateTime = s.lastBalanceUpdateTime := by
  have he : fetchBalance s (some r) now =
      ({ s with isFetchingBalance := false },
        [Eff.call (buildApiUrl "/user/balance")], Except.ok none) := by
    simp [fetchBalance, fetchWithAuth, hauth, h404, respOk]
  exact ⟨he, by rw [he], by rw [he]⟩

theorem fetchBalance_404_witness :
    isAuthenticated authedState = true ∧
      fetchBalance authedState (some { status := 404, body := { balanceData := sampleBalance } }) 5 =
        ({ authedState with isFetchingBalance := false },
          [Eff.call (buildApiUrl "/user/balance")], Except.ok none) ∧
      (fetchBalance authedState (some { status := 404, body := { balanceData := sampleBalance } }) 5).1.balance =
        authedState.balance :=
  have h := fetchBalance_404 authedState
    { status := 404, body := { balanceData := sampleBalance } } 5 (by decide) rfl
  ⟨by decide, h.1, h.2.1⟩

/-- C6: when `login` fails (a non-ok response, or a transport failure), the
error message is surfaced as an error toast through the notification
collaborator, the call resolves with no value instead of rethrowing, and
token, user, balance and the balance timestamp are left unchanged. -/
theorem login_failure_atomic (s : AuthState) (username password : String)
    (out : Option (HttpResp LoginBody))
    (hfail : ∀ r, out = some r → respOk r = false) :
    (login s username password out).1.token = s.token ∧
    (login s username password out).1.currentUser = s.currentUser ∧
    (login s username password out).1.balance = s.balance ∧
    (login s username password out).1.lastBalanceUpdateTime = s.lastBalanceUpdateTime ∧
    (login s username password out).2.2 = none ∧
    (login s username password out).2.1 =
      [Eff.call (buildApiUrl "/auth/login"),
       toastErrorHandler (match out with
         | none => StoreErr.network
         | some r => StoreErr.auth (jsOr r.body.errorField "Login failed"))] := by
  cases out with
  | none => simp [login, wrapWithErrorHandlingAsync, loginInner]
  | some r =>
    have hr : respOk r = false := hfail r rfl
    simp [login, wrapWithErrorHandlingAsync, loginInner, hr]

theorem login_failure_atomic_witness :
    (login authedState "alice" "pw"
        (some { status := 400,
                body := { data := { token := "T2", user := sampleUser },
                          errorField := some "Invalid credentials" } })).1.token =
      authedState.token ∧
    (login authedState "alice" "pw"
        (some { status := 400,
                body := { data := { token := "T2", user := sampleUser },
                          errorField := some "Invalid credentials" } })).2.2 = none ∧
    (login authedState "alice" "pw"
        (some { status := 400,
                body := { data := { token := "T2", user := sampleUser },
                          errorField := some "Invalid credentials" } })).2.1 =
      [Eff.call (buildApiUrl "/auth/login"),
       toastErrorHandler (StoreErr.auth "Invalid credentials")] :=
  have h := login_failure_atomic authedState "alice" "pw"
    (some { status := 400,
            body := { data := { token := "T2", user := sampleUser },
                      errorField := some "Invalid credentials" } })
    (by intro r hr; cases hr; decide)
  ⟨h.1, h.2.2.2.2.1, h.2.2.2.2.2⟩

/-- C7: `refreshToken` never propagates a failure: with no stored token, on
a transport failure, or on any non-ok response (the 401 case included, where
the helper raises and the catch swallows) it returns null; and it returns a
token only when the backend answered ok with a new token, which is then
stored. -/
theorem refreshToken_never_propagates (s : AuthState)
    (out : Option (HttpResp RefreshBody)) :
    (s.token = none → refreshToken s out = (s, [], none)) ∧
    (out = none → (refreshToken s out).2.2 = none) ∧
    (∀ r, out = some r → respOk r = false → (refreshToken s out).2.2 = none) ∧
    (∀ tk, (refreshToken s out).2.2 = some tk →
      (refreshToken s out).1.token = some tk ∧
      ∃ r, out = some r ∧ respOk r = true ∧ r.body.token = tk) := by
  refine ⟨?_, ?_, ?_, ?_⟩
  · intro h; simp [refreshToken, truthy, h]
  · intro h; subst h
    by_cases htr : truthy s.token = false <;>
      simp [refreshToken, htr, fetchWithAuth]
  · intro r hr hok; subst hr
    by_cases htr : truthy s.token = false
    · simp [refreshToken, htr]
    · by_cases h4 : r.status = 401 <;>
        simp [refreshToken, htr, fetchWithAuth, h4, hok]
  · intro tk h
    by_cases htr : truthy s.token = false
    · simp [refreshToken, htr] at h
    · cases out with
      | none => simp [refreshToken, htr, fetchWithAuth] at h
      | some r =>
        by_cases h4 : r.status = 401
        · simp [refreshToken, htr, fetchWithAuth, h4] at h
        · by_cases hok : respOk r
          · have hred : refreshToken s (some r) =
                ({ s with token := some r.body.token },
                  [Eff.call (buildApiUrl "/auth/refresh")], some r.body.token) := by
              simp [refreshToken, htr, fetchWithAuth, h4, hok]
            rw [hred] at h
            have h9 : r.body.token = tk := Option.some.inj h
            subst h9
            rw [hred]
            exact ⟨rfl, r, rfl, by simpa using hok, rfl⟩
          · simp [refreshToken, htr, fetchWithAuth, h4, hok] at h

theorem refreshToken_never_propagates_witness :
    (mkInitState none).token = none ∧
      refreshToken (mkInitState none) none = (mkInitState none, [], none) :=
  ⟨rfl, (refreshToken_never_propagates (mkInitState none) none).1 rfl⟩

/-- C2: a 401 response on any authenticated request clears the token and the
current user (the Anonymous state) and raises `ComfyCloudAuthError` from the
request helper, regardless of which operation triggered it: stated for the
helper itself and for `fetchUserInfo`, `fetchBalance`, the server call
inside `logout` (where the raised error is then swallowed), and
`refreshToken` (where the catch turns it into a null return). -/
theorem unauthorized_clears_session {b : Type} (url : String) (s : AuthState)
    (r : HttpResp b) (ru : HttpResp UserInfoBody) (rb : HttpResp BalanceBody)
    (rr : HttpResp RefreshBody) (rl : HttpResp Unit) (now : Nat)
    (h : r.status = 401) (hu : ru.status = 401) (hb : rb.status = 401)
    (hr : rr.status = 401) (hl : rl.status = 401) :
    fetchWithAuth url s (some r) =
      ({ s with token := none, currentUser := none }, [Eff.call url],
        Except.error (StoreErr.auth userNotAuthenticatedMsg)) ∧
    fetchUserInfo s (some ru) =
      ({ s with token := none, currentUser := none },
        [Eff.call (buildApiUrl "/user/info")],
        Except.error (StoreErr.auth userNotAuthenticatedMsg)) ∧
    (isAuthenticated s = true →
      fetchBalance s (some rb) now =
        ({ s with token := none, currentUser := none, isFetchingBalance := false },
          [Eff.call (buildApiUrl "/user/balance")],
          Except.error (StoreErr.auth userNotAuthenticatedMsg))) ∧
    (truthy s.token = true →
      refreshToken s (some rr) =
        ({ s with token := none, currentUser := none },
          [Eff.call (buildApiUrl "/auth/refresh")], none)) ∧
    (truthy s.token = true →
      logout s (some rl) =
        ({ s with token := none, currentUser := none, balance := none,
                  lastBalanceUpdateTime := none, loading := false },
          [Eff.call (buildApiUrl "/auth/logout"),
           Eff.toast { severity := ToastSeverity.info, summary := t "auth.logout.success" }],
          some ())) := by
  refine ⟨?_, ?_, ?_, ?_, ?_⟩
  · simp [fetchWithAuth, h]
  · simp [fetchUserInfo, fetchWithAuth, hu]
  · intro hauth
    simp [fetchBalance, fetchWithAuth, hauth, hb]
  · intro htr
    simp [refreshToken, fetchWithAuth, htr, hr]
  · intro htr
    simp [logout, wrapWithErrorHandlingAsync, logoutInner, fetchWithAuth, htr, hl]

theorem unauthorized_clears_session_witness :
    fetchUserInfo authedState (some { status := 401, body := { user := sampleUser } }) =
      ({ authedState with token := none, currentUser := none },
        [Eff.call (buildApiUrl "/user/info")],
        Except.error (StoreErr.auth userNotAuthenticatedMsg)) ∧
    fetchBalance authedState (some { status := 401, body := { balanceData := sampleBalance } }) 0 =
      ({ authedState with token := none, currentUser := none, isFetchingBalance := false },
        [Eff.call (buildApiUrl "/user/balance")],
        Except.error (StoreErr.auth userNotAuthenticatedMsg)) ∧
    refreshToken authedState (some { status := 401, body := { token := "X" } }) =
      ({ authedState with token := none, currentUser := none },
        [Eff.call (buildApiUrl "/auth/refresh")], none) ∧
    logout authedState (some { status := 401, body := () }) =
      ({ authedState with token := none, currentUser := none, balance := none,
                          lastBalanceUpdateTime := none, loading := false },
        [Eff.call (buildApiUrl "/auth/logout"),
         Eff.toast { severity := ToastSeverity.info, summary := t "auth.logout.success" }],
        some ()) :=
  have h := unauthorized_clears_session (b := Unit) "/api/x" authedState
    { status := 401, body := () }
    { status := 401, body := { user := sampleUser } }
    { status := 401, body := { balanceData := sampleBalance } }
    { status := 401, body := { token := "X" } }
    { status := 401, body := () } 0 rfl rfl rfl rfl rfl
  ⟨h.2.1, h.2.2.1 (by decide), h.2.2.2.1 (by decide), h.2.2.2.2 (by decide)⟩

/-- C8 counterexample: a persisted empty-string token is present (non-null)
at startup, yet `if (newToken)` takes the clear branch: no `/user/info`
request is issued and the token stays `""` rather than becoming null,
refuting the claimed exactly-one `fetchUserInfo` call. -/
theorem init_persisted_token_counterexample :
    countCalls (initStore (some "") none).2 (buildApiUrl "/user/info") = 0 ∧
    (initStore (some "") none).1.isInitialized = true ∧
    (initStore (some "") none).1.token = some "" := by
  refine ⟨by decide, by decide, by decide⟩

/-- C8 amended: when a persisted non-empty token is present at startup,
initialization issues exactly one request to the user-info endpoint and ends
with `isInitialized` true; when that `fetchUserInfo` call fails, the token
ends null (and `isInitialized` is still true). A persisted empty-string
token is falsy in JavaScript and takes the cleared branch instead. -/
theorem init_persisted_token (tk : String) (htk : tk ≠ "")
    (out : Option (HttpResp UserInfoBody)) :
    countCalls (initStore (some tk) out).2 (buildApiUrl "/user/info") = 1 ∧
    (initStore (some tk) out).1.isInitialized = true ∧
    (resultOk (fetchUserInfo (mkInitState (some tk)) out).2.2 = false →
      (initStore (some tk) out).1.token = none) := by
  have hie : tk.isEmpty = false := (string_isEmpty_false_iff tk).mpr htk
  cases out with
  | none =>
    refine ⟨?_, ?_, ?_⟩ <;>
      simp [initStore, tokenWatcherRun, mkInitState, truthy, hie, fetchUserInfo,
        fetchWithAuth, watcherNullFire, countCalls, resultOk]
  | some r =>
    by_cases h4 : r.status = 401
    · refine ⟨?_, ?_, ?_⟩ <;>
        simp [initStore, tokenWatcherRun, mkInitState, truthy, hie, fetchUserInfo,
          fetchWithAuth, watcherNullFire, countCalls, resultOk, h4]
    · by_cases hok : respOk r
      · refine ⟨?_, ?_, ?_⟩ <;>
          simp [initStore, tokenWatcherRun, mkInitState, truthy, hie, fetchUserInfo,
            fetchWithAuth, watcherNullFire, countCalls, resultOk, h4, hok]
      · refine ⟨?_, ?_, ?_⟩ <;>
          simp [initStore, tokenWatcherRun, mkInitState, truthy, hie, fetchUserInfo,
            fetchWithAuth, watcherNullFire, countCalls, resultOk, h4, hok]

theorem init_persisted_token_witness :
    ("T" : String) ≠ "" ∧
      countCalls (initStore (some "T") none).2 (buildApiUrl "/user/info") = 1 ∧
      (initStore (some "T") none).1.isInitialized = true ∧
      (initStore (some "T") none).1.token = none :=
  have h := init_persisted_token "T" (by decide) none
  ⟨by decide, h.1, h.2.1, h.2.2 rfl⟩

/-- C10 counterexample: with a stored (non-null) empty-string token and a
backend that would answer 401, `refreshToken` returns null without issuing
the request and without clearing anything — the state is returned unchanged,
so the claimed clearing of token, user and balance does not happen. -/
theorem refreshToken_401_counterexample :
    emptyTokenState.token ≠ none ∧
    emptyTokenState.currentUser ≠ none ∧
    refreshToken emptyTokenState (some { status := 401, body := { token := "X" } }) =
      (emptyTokenState, [], none) := by
  refine ⟨by decide, by decide, by decide⟩

/-- C10 amended: `refreshToken` called while a non-empty (truthy) token is
stored, receiving a 401, returns null as if the failure were benign, but as
a side effect token and user are cleared, and the watcher firing that
follows the token change clears the balance as well; with a stored empty
token the guard returns null with no request and no side effect. -/
theorem refreshToken_401_silent_logout (s : AuthState)
    (r : HttpResp RefreshBody) (htr : truthy s.token = true)
    (h401 : r.status = 401) :
    refreshToken s (some r) =
      ({ s with token := none, currentUser := none },
        [Eff.call (buildApiUrl "/auth/refresh")], none) ∧
    (∀ out2, tokenWatcherRun (refreshToken s (some r)).1 out2 =
      ({ s with token := none, currentUser := none, balance := none,
                isInitialized := true }, [])) ∧
    (∀ out2, (tokenWatcherRun (refreshToken s (some r)).1 out2).1.balance = none) := by
  have hred : refreshToken s (some r) =
      ({ s with token := none, currentUser := none },
        [Eff.call (buildApiUrl "/auth/refresh")], none) := by
    simp [refreshToken, fetchWithAuth, htr, h401]
  refine ⟨hred, ?_, ?_⟩
  · intro out2
    rw [hred]
    simp [tokenWatcherRun, truthy, watcherNullFire]
  · intro out2
    rw [hred]
    simp [tokenWatcherRun, truthy, watcherNullFire]

theorem refreshToken_401_silent_logout_witness :
    refreshToken authedState (some { status := 401, body := { token := "X" } }) =
      ({ authedState with token := none, currentUser := none },
        [Eff.call (buildApiUrl "/auth/refresh")], none) ∧
    tokenWatcherRun (refreshToken authedState
        (some { status := 401, body := { token := "X" } })).1 none =
      ({ authedState with token := none, currentUser := none, balance := none,
                          isInitialized := true }, []) :=
  have h := refreshToken_401_silent_logout authedState
    { status := 401, body := { token := "X" } } (by decide) rfl
  ⟨h.1, h.2.1 none⟩

/-- C9 counterexample: in the reachable startup state with a persisted token
whose user is not yet resolved, the session is unauthenticated and yet
`getAuthToken` returns the raw token and `getAuthHeader` the Bearer header,
refuting the claim that both return null whenever the session is
unauthenticated. -/
theorem auth_accessors_unauthenticated_counterexample :
    Reachable (mkInitState (some "T")) ∧
    isAuthenticated (mkInitState (some "T")) = false ∧
    getAuthToken (mkInitState (some "T")) = some "T" ∧
    getAuthHeader (mkInitState (some "T")) = some { Authorization := "Bearer T" } :=
  ⟨Reachable.init (some "T"), by decide, by decide, by decide⟩

/-- C9 amended: `getAuthHeader` and `getAuthToken` are pure read accessors
(they take the state and return a value without modifying it) that test the
token, not the session: `getAuthToken` returns the raw token verbatim (null
exactly when the token is null, the empty string being a non-null return),
while `getAuthHeader` returns null exactly when the token is null or empty
(falsy) and otherwise the Bearer header, even if no user is resolved. -/
theorem auth_accessors_read_token (s : AuthState) :
    getAuthToken s = s.token ∧
    (getAuthHeader s = none ↔ (s.token = none ∨ s.token = some "")) ∧
    (∀ tk, s.token = some tk → tk ≠ "" →
      getAuthHeader s = some { Authorization := "Bearer " ++ tk }) := by
  refine ⟨rfl, ?_, ?_⟩
  · cases htk : s.token with
    | none => simp [getAuthHeader, htk]
    | some tk0 =>
      by_cases he : tk0.isEmpty = true
      · have h0 : tk0 = "" := (String.isEmpty_iff tk0).mp he
        subst h0
        simp [getAuthHeader, htk, (by decide : ("" : String).isEmpty = true)]
      · have he9 : tk0 ≠ "" := (string_isEmpty_false_iff tk0).mp (by simpa using he)
        simp [getAuthHeader, htk, he, he9]
  · intro tk htk hne
    have hie : tk.isEmpty = false := (string_isEmpty_false_iff tk).mpr hne
    simp [getAuthHeader, htk, hie]

theorem auth_accessors_read_token_witness :
    getAuthHeader (mkInitState (some "T")) = some { Authorization := "Bearer T" } :=
  (auth_accessors_read_token (mkInitState (some "T"))).2.2 "T" rfl (by decide)

end ComfyCloudAuth
